import Mathlib

/-!
Shallow embedding of the appointment booking router
(`src/modules/booking/routes/booking.js`) of the
pizza-restaurant-in-brooklyn-backend repository.

The router is a set of Express request handlers over a Mongoose document
store.  We model the store as explicit lists of records, dates as natural
number timestamps in milliseconds, and each handler as a pure function from
a store and a request to a response together with the updated store.
Model-level methods that live outside the router source (the Mongoose
`updateStats`, `reschedule` methods) are modelled from the spec and marked
as such in their doc comments.
-/

namespace Booking

/-- One day in milliseconds; models the one-day step of the JavaScript
`nextDay.setDate(nextDay.getDate() + 1)` date arithmetic. -/
def dayMs : Nat := 86400000

/-- Lexicographic strict comparison of character lists by code point,
modelling the JavaScript / BSON ordering of time strings such as "09:00". -/
def charsLT : List Char → List Char → Bool
  | [], [] => false
  | [], _ :: _ => true
  | _ :: _, [] => false
  | a :: as, b :: bs => a.toNat < b.toNat || (a.toNat == b.toNat && charsLT as bs)

/-- Non-strict string comparison derived from `charsLT`. -/
def strLE (a b : String) : Bool := !(charsLT b.data a.data)

/-- An appointment document.  Ids and entity references are modelled as
naturals, the appointment date as a millisecond timestamp, times and the
status as strings exactly as the router compares them. -/
structure Appointment where
  id : Nat
  practiceId : Nat
  patientId : Nat
  providerId : Nat
  appointmentDate : Nat
  startTime : String
  endTime : String
  status : String
deriving Repr, DecidableEq

/-- One day of a provider weekly schedule; the router only reads the
`available` flag. -/
structure DaySchedule where
  available : Bool
deriving Repr, DecidableEq

/-- A provider weekly schedule, one entry per day name exactly as the
router indexes it through its `days` array. -/
structure WeekSchedule where
  sunday : DaySchedule
  monday : DaySchedule
  tuesday : DaySchedule
  wednesday : DaySchedule
  thursday : DaySchedule
  friday : DaySchedule
  saturday : DaySchedule
deriving Repr, DecidableEq

/-- `provider.schedule[days[i]]` for a day index `i` produced by `getDay()`
(0 = sunday .. 6 = saturday). -/
def WeekSchedule.byDay (w : WeekSchedule) : Nat → DaySchedule
  | 0 => w.sunday
  | 1 => w.monday
  | 2 => w.tuesday
  | 3 => w.wednesday
  | 4 => w.thursday
  | 5 => w.friday
  | _ => w.saturday

/-- `targetDate.getDay()`: day of week of a millisecond timestamp
(the Unix epoch fell on a Thursday, index 4). -/
def getDayIdx (t : Nat) : Nat := (t / dayMs + 4) % 7

/-- Denormalized counters cached on a patient record. -/
structure PatientStats where
  nextAppointment : Option Nat := none
  cancelledAppointments : Nat := 0
deriving Repr, DecidableEq

structure PatientRec where
  id : Nat
  stats : PatientStats := {}
deriving Repr, DecidableEq

/-- Denormalized counters cached on a provider record. -/
structure ProviderStats where
  totalAppointments : Nat := 0
deriving Repr, DecidableEq

structure ProviderRec where
  id : Nat
  schedule : WeekSchedule
  stats : ProviderStats := {}
deriving Repr, DecidableEq

/-- Denormalized counters cached on a practice record. -/
structure PracticeStats where
  totalAppointments : Nat := 0
deriving Repr, DecidableEq

structure PracticeRec where
  id : Nat
  stats : PracticeStats := {}
deriving Repr, DecidableEq

/-- The document store: the appointment collection plus the three entity
collections the router consults, and the id counter used for new
appointment documents. -/
structure Store where
  appointments : List Appointment
  patients : List PatientRec
  providers : List ProviderRec
  practices : List PracticeRec
  nextId : Nat := 0
deriving Repr, DecidableEq

/-- The uniform response envelope: HTTP status code, success flag and the
optional error / message strings. -/
structure Response where
  httpStatus : Nat
  success : Bool
  error : Option String := none
  message : Option String := none
deriving Repr, DecidableEq

/-- `Practice.findById`. -/
def Store.findPractice (s : Store) (pid : Nat) : Option PracticeRec :=
  s.practices.find? (fun p => p.id == pid)

/-- `Patient.findById`. -/
def Store.findPatient (s : Store) (pid : Nat) : Option PatientRec :=
  s.patients.find? (fun p => p.id == pid)

/-- `Provider.findById`. -/
def Store.findProvider (s : Store) (pid : Nat) : Option ProviderRec :=
  s.providers.find? (fun p => p.id == pid)

/-- `Appointment.findById`. -/
def Store.findAppointment (s : Store) (aid : Nat) : Option Appointment :=
  s.appointments.find? (fun a => a.id == aid)

/-- The Mongo status filter of the conflict queries: it excludes the
cancelled and no-show statuses. -/
def activeStatus (st : String) : Bool :=
  st != "cancelled" && st != "no-show"

/-- The conflict query of the create and reschedule handlers: exact match
on provider, date and start time, with a non-cancelled, non-no-show
status. -/
def conflictsWith (providerId appointmentDate : Nat) (startTime : String)
    (a : Appointment) : Bool :=
  a.providerId == providerId && a.appointmentDate == appointmentDate &&
    a.startTime == startTime && activeStatus a.status

/-- The body of a create request (`POST /`). -/
structure CreateReq where
  practiceId : Nat
  patientId : Nat
  providerId : Nat
  appointmentDate : Nat
  startTime : String
  endTime : String
  status : String := "scheduled"
deriving Repr, DecidableEq

/-- The appointment document built from a create request
(`new Appointment(req.body)` plus the store-assigned id). -/
def newAppointment (s : Store) (req : CreateReq) : Appointment :=
  { id := s.nextId, practiceId := req.practiceId, patientId := req.patientId,
    providerId := req.providerId, appointmentDate := req.appointmentDate,
    startTime := req.startTime, endTime := req.endTime, status := req.status }

/-- Modelled from the spec: the Mongoose model method `Patient.updateStats`
is not part of the router source; per the spec it merges the given fields
into the denormalized `stats` record of the patient.  Here it stores the
next-appointment date on the patient with the given id. -/
def updatePatientNext (s : Store) (pid : Nat) (next : Nat) : Store :=
  { s with patients := s.patients.map (fun p =>
      if p.id == pid then { p with stats := { p.stats with nextAppointment := some next } } else p) }

/-- Modelled from the spec: the Mongoose model method `Provider.updateStats`
is not part of the router source; per the spec it merges the given fields
into the denormalized `stats` record of the provider. -/
def updateProviderTotal (s : Store) (pid : Nat) (total : Nat) : Store :=
  { s with providers := s.providers.map (fun p =>
      if p.id == pid then { p with stats := { p.stats with totalAppointments := total } } else p) }

/-- Modelled from the spec: the Mongoose model method `Practice.updateStats`
is not part of the router source; per the spec it merges the given fields
into the denormalized `stats` record of the practice. -/
def updatePracticeTotal (s : Store) (pid : Nat) (total : Nat) : Store :=
  { s with practices := s.practices.map (fun p =>
      if p.id == pid then { p with stats := { p.stats with totalAppointments := total } } else p) }

/-- The count query of the provider stat update: all appointments of the
provider whose status differs from cancelled. -/
def countProviderNonCancelled (s : Store) (providerId : Nat) : Nat :=
  (s.appointments.filter (fun a => a.providerId == providerId && a.status != "cancelled")).length

/-- `Appointment.countDocuments({ practiceId })`. -/
def countPracticeAll (s : Store) (practiceId : Nat) : Nat :=
  (s.appointments.filter (fun a => a.practiceId == practiceId)).length

/-- Which of the three post-save stat updates of the create handler resolve
successfully; a `false` entry models the corresponding awaited
`updateStats` call rejecting, which lands in the catch block. -/
structure Effects where
  patientUpd : Bool := true
  providerUpd : Bool := true
  practiceUpd : Bool := true
deriving Repr, DecidableEq

/-- The catch-block response of the create handler. -/
def createFailed : Response :=
  { httpStatus := 500, success := false, error := some "Failed to create appointment" }

/-- The create handler (`POST /`), with the outcome of each awaited stat
update made explicit.  Writes performed before a rejecting await persist,
exactly as in the document store. -/
def createAppointmentWith (eff : Effects) (s : Store) (req : CreateReq) :
    Response × Store :=
  match s.findPractice req.practiceId with
  | none => ({ httpStatus := 404, success := false, error := some "Practice not found" }, s)
  | some _ =>
  match s.findPatient req.patientId with
  | none => ({ httpStatus := 404, success := false, error := some "Patient not found" }, s)
  | some _ =>
  match s.findProvider req.providerId with
  | none => ({ httpStatus := 404, success := false, error := some "Provider not found" }, s)
  | some _ =>
  if (s.appointments.find? (conflictsWith req.providerId req.appointmentDate req.startTime)).isSome then
    ({ httpStatus := 400, success := false,
       error := some "Time slot already booked for this provider" }, s)
  else
    let s1 : Store := { s with appointments := s.appointments ++ [newAppointment s req],
                               nextId := s.nextId + 1 }
    if !eff.patientUpd then (createFailed, s1) else
    let s2 := updatePatientNext s1 req.patientId req.appointmentDate
    if !eff.providerUpd then (createFailed, s2) else
    let s3 := updateProviderTotal s2 req.providerId (countProviderNonCancelled s2 req.providerId)
    if !eff.practiceUpd then (createFailed, s3) else
    let s4 := updatePracticeTotal s3 req.practiceId (countPracticeAll s3 req.practiceId)
    ({ httpStatus := 201, success := true, message := some "Appointment created successfully" }, s4)

/-- The create handler when every stat update resolves. -/
def createAppointment : Store → CreateReq → Response × Store :=
  createAppointmentWith {}

/-- The store right after `appointment.save()`. -/
def saveStore (s : Store) (req : CreateReq) : Store :=
  { s with appointments := s.appointments ++ [newAppointment s req], nextId := s.nextId + 1 }

/-- The store produced by a fully successful create: the save followed by
the three stat updates of the handler. -/
def createSuccessStore (s : Store) (req : CreateReq) : Store :=
  let s1 := saveStore s req
  let s2 := updatePatientNext s1 req.patientId req.appointmentDate
  let s3 := updateProviderTotal s2 req.providerId (countProviderNonCancelled s2 req.providerId)
  updatePracticeTotal s3 req.practiceId (countPracticeAll s3 req.practiceId)

/-- The query string of the list handler (`GET /`); absent parameters are
`none` (falsy in the handler). -/
structure ListQuery where
  practiceId : Option Nat := none
  patientId : Option Nat := none
  providerId : Option Nat := none
  status : Option String := none
  date : Option Nat := none
  startDate : Option Nat := none
  endDate : Option Nat := none
deriving Repr, DecidableEq

/-- The date part of the list filter: an exact date expands to the
half-open interval `[date, date + 1 day)`; otherwise a range needs both
bounds and is inclusive; otherwise no constraint. -/
def matchesDateFilter (q : ListQuery) (d : Nat) : Bool :=
  match q.date with
  | some t => decide (t ≤ d) && decide (d < t + dayMs)
  | none =>
    match q.startDate, q.endDate with
    | some a, some b => decide (a ≤ d) && decide (d ≤ b)
    | _, _ => true

/-- The full document filter assembled by the list handler. -/
def matchesFilters (q : ListQuery) (a : Appointment) : Bool :=
  (match q.practiceId with | some p => a.practiceId == p | none => true) &&
  (match q.patientId with | some p => a.patientId == p | none => true) &&
  (match q.providerId with | some p => a.providerId == p | none => true) &&
  (match q.status with | some st => a.status == st | none => true) &&
  matchesDateFilter q a.appointmentDate

/-- The sort key `{ appointmentDate: 1, startTime: 1 }`: date ascending,
then start time ascending. -/
def apptLE (a b : Appointment) : Bool :=
  decide (a.appointmentDate < b.appointmentDate) ||
    (a.appointmentDate == b.appointmentDate && strLE a.startTime b.startTime)

/-- The list handler (`GET /`): filter, then sort by date and start time. -/
def listAppointments (s : Store) (q : ListQuery) : List Appointment :=
  (s.appointments.filter (matchesFilters q)).mergeSort apptLE

/-- Modelled from the spec: the Mongoose model method
`appointment.reschedule(newDate, newStartTime, newEndTime, reason)` is not
part of the router source; per the spec it performs the field mutation,
moving the appointment to the new date and times. -/
def Appointment.applyReschedule (a : Appointment) (newDate : Nat)
    (newStartTime newEndTime : String) : Appointment :=
  { a with appointmentDate := newDate, startTime := newStartTime, endTime := newEndTime }

/-- The reschedule handler (`POST /:id/reschedule`): the conflict query is
the one of create restricted to ids different from the id of the
appointment being rescheduled. -/
def rescheduleAppointment (s : Store) (aid : Nat) (newDate : Nat)
    (newStartTime newEndTime : String) : Response × Store :=
  match s.findAppointment aid with
  | none => ({ httpStatus := 404, success := false, error := some "Appointment not found" }, s)
  | some appt =>
    if (s.appointments.find? (fun a =>
          conflictsWith appt.providerId newDate newStartTime a && a.id != appt.id)).isSome then
      ({ httpStatus := 400, success := false, error := some "New time slot already booked" }, s)
    else
      ({ httpStatus := 200, success := true, message := some "Appointment rescheduled" },
       { s with appointments := s.appointments.map (fun a =>
           if a.id == appt.id then a.applyReschedule newDate newStartTime newEndTime else a) })

/-- The response of the available-slots handler
(`GET /available-slots/:providerId`); the two success shapes of the route
are covered by the optional fields. -/
structure SlotsResponse where
  httpStatus : Nat
  success : Bool
  error : Option String := none
  message : Option String := none
  availableSlots : Option (List String) := none
  bookedTimes : Option (List String) := none
deriving Repr, DecidableEq

/-- The available-slots handler: requires a date, requires the provider to
exist, answers with an empty slot list when the day of week is marked
unavailable, and otherwise returns the booked start times of the day. -/
def getAvailableSlots (s : Store) (providerId : Nat) (date : Option Nat) :
    SlotsResponse :=
  match date with
  | none => { httpStatus := 400, success := false, error := some "Date is required" }
  | some d =>
    match s.findProvider providerId with
    | none => { httpStatus := 404, success := false, error := some "Provider not found" }
    | some provider =>
      let schedule := provider.schedule.byDay (getDayIdx d)
      if !schedule.available then
        { httpStatus := 200, success := true, availableSlots := some [],
          message := some "Provider not available on this day" }
      else
        let booked := s.appointments.filter (fun a =>
          a.providerId == providerId && decide (d ≤ a.appointmentDate) &&
            decide (a.appointmentDate < d + dayMs) && activeStatus a.status)
        { httpStatus := 200, success := true,
          bookedTimes := some (booked.map (fun a => a.startTime)),
          message := some "Check booked times against schedule" }

/-- The delete handler (`DELETE /:id`): `findByIdAndDelete` removes the
document with the given id when present. -/
def deleteAppointment (s : Store) (aid : Nat) : Response × Store :=
  match s.findAppointment aid with
  | none => ({ httpStatus := 404, success := false, error := some "Appointment not found" }, s)
  | some _ =>
    ({ httpStatus := 200, success := true, message := some "Appointment deleted successfully" },
     { s with appointments := s.appointments.eraseP (fun a => a.id == aid) })

/-! Concrete fixtures used to evaluate the handlers on explicit inputs. -/

def allDaysOn : WeekSchedule :=
  ⟨⟨true⟩, ⟨true⟩, ⟨true⟩, ⟨true⟩, ⟨true⟩, ⟨true⟩, ⟨true⟩⟩

def allDaysOff : WeekSchedule :=
  ⟨⟨false⟩, ⟨false⟩, ⟨false⟩, ⟨false⟩, ⟨false⟩, ⟨false⟩, ⟨false⟩⟩

def apptA : Appointment := ⟨0, 1, 1, 1, 100, "09:00", "09:30", "scheduled"⟩

def apptB : Appointment := ⟨1, 1, 1, 1, 100, "10:00", "10:30", "scheduled"⟩

def apptACancelled : Appointment := ⟨0, 1, 1, 1, 100, "09:00", "09:30", "cancelled"⟩

def baseStore : Store :=
  { appointments := [apptA], patients := [⟨1, {}⟩],
    providers := [⟨1, allDaysOn, {}⟩], practices := [⟨1, {}⟩], nextId := 1 }

def storeNoPractice : Store := { baseStore with practices := [] }

def storeNoPatient : Store := { baseStore with patients := [] }

def storeNoProvider : Store := { baseStore with providers := [] }

def storeFreeSlot : Store := { baseStore with appointments := [apptACancelled] }

def storeTwo : Store := { baseStore with appointments := [apptA, apptB], nextId := 2 }

def storeDayOff : Store := { baseStore with providers := [⟨1, allDaysOff, {}⟩] }

def reqSlot : CreateReq :=
  { practiceId := 1, patientId := 1, providerId := 1, appointmentDate := 100,
    startTime := "09:00", endTime := "09:30" }

/-! Order-theoretic facts about the sort key, needed to apply the sorting
lemmas of `List.mergeSort`. -/

theorem charsLT_asymm : ∀ a b : List Char, charsLT a b = true → charsLT b a = false := by
  intro a
  induction a with
  | nil =>
    intro b h
    cases b with
    | nil => simp [charsLT] at h
    | cons y ys => simp [charsLT]
  | cons x xs ih =>
    intro b h
    cases b with
    | nil => simp [charsLT] at h
    | cons y ys =>
      simp [charsLT] at h ⊢
      rcases h with h | ⟨he, hlt⟩
      · exact ⟨by omega, fun hyx => by omega⟩
      · exact ⟨by omega, fun _ => ih ys hlt⟩

theorem charsLT_cotrans :
    ∀ c a b : List Char, charsLT c a = true →
      charsLT c b = true ∨ charsLT b a = true := by
  intro c
  induction c with
  | nil =>
    intro a b h
    cases a with
    | nil => simp [charsLT] at h
    | cons x xs =>
      cases b with
      | nil => right; simp [charsLT]
      | cons y ys => left; simp [charsLT]
  | cons z zs ih =>
    intro a b h
    cases a with
    | nil => simp [charsLT] at h
    | cons x xs =>
      cases b with
      | nil => right; simp [charsLT]
      | cons y ys =>
        simp [charsLT] at h ⊢
        rcases h with h | ⟨he, hlt⟩
        · by_cases hzy : z.toNat < y.toNat
          · left; left; exact hzy
          · right; left; omega
        · by_cases hzy : z.toNat < y.toNat
          · left; left; exact hzy
          · by_cases hyx : y.toNat < x.toNat
            · right; left; exact hyx
            · rcases ih xs ys hlt with h' | h'
              · left; right; exact ⟨by omega, h'⟩
              · right; right; exact ⟨by omega, h'⟩

theorem strLE_total (a b : String) : (strLE a b || strLE b a) = true := by
  by_cases h : charsLT b.data a.data = true
  · have h2 := charsLT_asymm _ _ h
    simp [strLE, h2]
  · simp [strLE, Bool.not_eq_true] at h
    simp [strLE, h]

theorem strLE_trans (a b c : String) (h1 : strLE a b = true) (h2 : strLE b c = true) :
    strLE a c = true := by
  simp [strLE, Bool.not_eq_true'] at h1 h2 ⊢
  by_contra h
  simp [Bool.not_eq_false] at h
  rcases charsLT_cotrans c.data a.data b.data h with h' | h'
  · simp [h'] at h2
  · simp [h'] at h1

theorem apptLE_trans (a b c : Appointment) (h1 : apptLE a b = true)
    (h2 : apptLE b c = true) : apptLE a c = true := by
  simp [apptLE] at h1 h2 ⊢
  rcases h1 with h1 | ⟨e1, s1⟩
  · rcases h2 with h2 | ⟨e2, s2⟩
    · left; omega
    · left; omega
  · rcases h2 with h2 | ⟨e2, s2⟩
    · left; omega
    · right; exact ⟨by omega, strLE_trans _ _ _ s1 s2⟩

theorem apptLE_total (a b : Appointment) : (apptLE a b || apptLE b a) = true := by
  simp [apptLE]
  rcases Nat.lt_trichotomy a.appointmentDate b.appointmentDate with h | h | h
  · left; left; exact h
  · have := strLE_total a.startTime b.startTime
    simp at this
    rcases this with hs | hs
    · left; right; exact ⟨h, hs⟩
    · right; right; exact ⟨h.symm, hs⟩
  · right; left; exact h

/-! Small facts about the store operations, shared by the claim proofs. -/

theorem find?_map_update {α : Type} (g : α → α) (p : α → Bool)
    (hp : ∀ a, p (g a) = p a) (l : List α) :
    (l.map g).find? p = (l.find? p).map g := by
  rw [List.find?_map]
  have h : p ∘ g = p := funext hp
  rw [h]

theorem eraseP_id_complete (aid : Nat) :
    ∀ l : List Appointment, (l.map (fun a => a.id)).Nodup →
      ∀ a ∈ l.eraseP (fun x => x.id == aid), a.id ≠ aid := by
  intro l
  induction l with
  | nil => intro _ a ha; simp [List.eraseP] at ha
  | cons x xs ih =>
    intro hnd a ha
    simp only [List.map_cons, List.nodup_cons] at hnd
    obtain ⟨hx, hnd'⟩ := hnd
    rw [List.eraseP_cons] at ha
    by_cases hpx : (x.id == aid) = true
    · simp only [hpx, cond_true] at ha
      intro he
      apply hx
      have : x.id = aid := by simpa using hpx
      rw [this, ← he]
      exact List.mem_map_of_mem (fun a => a.id) ha
    · simp only [hpx, cond_false, List.mem_cons] at ha
      rcases ha with rfl | ha
      · simpa using hpx
      · exact ih hnd' a ha

theorem conflict_find?_eq_none (s : Store) (req : CreateReq)
    (hfree : ∀ a ∈ s.appointments, a.providerId = req.providerId →
      a.appointmentDate = req.appointmentDate → a.startTime = req.startTime →
      a.status = "cancelled" ∨ a.status = "no-show") :
    s.appointments.find? (conflictsWith req.providerId req.appointmentDate req.startTime) = none := by
  rw [List.find?_eq_none]
  intro a ha h
  simp only [conflictsWith, activeStatus, Bool.and_eq_true, beq_iff_eq, bne_iff_ne,
    ne_eq] at h
  obtain ⟨⟨⟨h1, h2⟩, h3⟩, h4, h5⟩ := h
  rcases hfree a ha h1 h2 h3 with hc | hc
  · exact h4 hc
  · exact h5 hc

theorem updatePatientNext_appointments (s : Store) (pid n : Nat) :
    (updatePatientNext s pid n).appointments = s.appointments := rfl

theorem updateProviderTotal_appointments (s : Store) (pid n : Nat) :
    (updateProviderTotal s pid n).appointments = s.appointments := rfl

theorem updatePracticeTotal_appointments (s : Store) (pid n : Nat) :
    (updatePracticeTotal s pid n).appointments = s.appointments := rfl

theorem createWith_reduce (eff : Effects) (s : Store) (req : CreateReq)
    (pr : PracticeRec) (pa : PatientRec) (pv : ProviderRec)
    (hpr : s.findPractice req.practiceId = some pr)
    (hpa : s.findPatient req.patientId = some pa)
    (hpv : s.findProvider req.providerId = some pv)
    (hfree : s.appointments.find?
      (conflictsWith req.providerId req.appointmentDate req.startTime) = none) :
    createAppointmentWith eff s req =
      (let s1 : Store := { s with appointments := s.appointments ++ [newAppointment s req],
                                  nextId := s.nextId + 1 }
       if !eff.patientUpd then (createFailed, s1) else
       let s2 := updatePatientNext s1 req.patientId req.appointmentDate
       if !eff.providerUpd then (createFailed, s2) else
       let s3 := updateProviderTotal s2 req.providerId (countProviderNonCancelled s2 req.providerId)
       if !eff.practiceUpd then (createFailed, s3) else
       let s4 := updatePracticeTotal s3 req.practiceId (countPracticeAll s3 req.practiceId)
       ({ httpStatus := 201, success := true,
          message := some "Appointment created successfully" }, s4)) := by
  unfold createAppointmentWith
  rw [hpr, hpa, hpv, hfree]
  simp

/-- Claim C1 (amended: the referenced practice, patient and provider must
exist): when all three referenced entities exist and the store holds an
appointment at the same (provider, date, start time) whose status is
neither cancelled nor no-show, the create request is rejected with HTTP 400
and the error "Time slot already booked for this provider", and the store
is left unchanged, so no new appointment is persisted. -/
theorem create_conflict_rejected (s : Store) (req : CreateReq)
    (hpr : (s.findPractice req.practiceId).isSome = true)
    (hpa : (s.findPatient req.patientId).isSome = true)
    (hpv : (s.findProvider req.providerId).isSome = true)
    (hc : ∃ a ∈ s.appointments,
      conflictsWith req.providerId req.appointmentDate req.startTime a = true) :
    (createAppointment s req).1 =
      { httpStatus := 400, success := false,
        error := some "Time slot already booked for this provider" } ∧
    (createAppointment s req).2 = s := by
  rcases Option.isSome_iff_exists.mp hpr with ⟨pr, hpr'⟩
  rcases Option.isSome_iff_exists.mp hpa with ⟨pa, hpa'⟩
  rcases Option.isSome_iff_exists.mp hpv with ⟨pv, hpv'⟩
  have hcs : (s.appointments.find?
      (conflictsWith req.providerId req.appointmentDate req.startTime)).isSome = true :=
    List.find?_isSome.mpr hc
  unfold createAppointment createAppointmentWith
  rw [hpr', hpa', hpv']
  simp [hcs]

/-- Claim C1, counterexample to the unamended claim: the store holds a
non-cancelled conflicting appointment at the requested slot, yet the create
request is answered with 404 "Practice not found" rather than the 400
conflict response, because the referenced practice does not exist. -/
theorem create_conflict_rejected_cex :
    storeNoPractice.appointments.any
      (conflictsWith reqSlot.providerId reqSlot.appointmentDate reqSlot.startTime) = true ∧
    (createAppointment storeNoPractice reqSlot).1.httpStatus = 404 ∧
    ¬(createAppointment storeNoPractice reqSlot).1.httpStatus = 400 ∧
    (createAppointment storeNoPractice reqSlot).1.error = some "Practice not found" := by
  decide

/-- Claim C1, witness: the amended theorem applied to a concrete store with
a scheduled appointment occupying the requested slot. -/
theorem create_conflict_rejected_witness :
    (createAppointment baseStore reqSlot).1 =
      { httpStatus := 400, success := false,
        error := some "Time slot already booked for this provider" } ∧
    (createAppointment baseStore reqSlot).2 = baseStore :=
  create_conflict_rejected baseStore reqSlot (by decide) (by decide) (by decide) (by decide)

/-- Claim C2: when the referenced practice, patient and provider exist and
every stored appointment at the requested (provider, date, start time) is
cancelled or a no-show, the create request succeeds with HTTP 201 and the
new appointment is appended to the store: cancelled and no-show
appointments do not block the slot. -/
theorem create_free_slot_succeeds (s : Store) (req : CreateReq)
    (hpr : (s.findPractice req.practiceId).isSome = true)
    (hpa : (s.findPatient req.patientId).isSome = true)
    (hpv : (s.findProvider req.providerId).isSome = true)
    (hfree : ∀ a ∈ s.appointments, a.providerId = req.providerId →
      a.appointmentDate = req.appointmentDate → a.startTime = req.startTime →
      a.status = "cancelled" ∨ a.status = "no-show") :
    (createAppointment s req).1.httpStatus = 201 ∧
    (createAppointment s req).1.success = true ∧
    (createAppointment s req).2.appointments = s.appointments ++ [newAppointment s req] := by
  rcases Option.isSome_iff_exists.mp hpr with ⟨pr, hpr'⟩
  rcases Option.isSome_iff_exists.mp hpa with ⟨pa, hpa'⟩
  rcases Option.isSome_iff_exists.mp hpv with ⟨pv, hpv'⟩
  have hnone := conflict_find?_eq_none s req hfree
  have hred := createWith_reduce {} s req pr pa pv hpr' hpa' hpv' hnone
  unfold createAppointment
  rw [hred]
  simp [updatePatientNext_appointments, updateProviderTotal_appointments,
    updatePracticeTotal_appointments]

/-- Claim C2, witness: creating at a slot occupied only by a cancelled
appointment succeeds on a concrete store. -/
theorem create_free_slot_succeeds_witness :
    (createAppointment storeFreeSlot reqSlot).1.httpStatus = 201 ∧
    (createAppointment storeFreeSlot reqSlot).1.success = true ∧
    (createAppointment storeFreeSlot reqSlot).2.appointments =
      storeFreeSlot.appointments ++ [newAppointment storeFreeSlot reqSlot] :=
  create_free_slot_succeeds storeFreeSlot reqSlot (by decide) (by decide) (by decide)
    (by decide)

/-- Claim C6: the create handler checks the existence of the referenced
practice, then patient, then provider, in that order; the first missing
entity short-circuits with HTTP 404 and a message naming that entity, and
the store is left unchanged, so no conflict check or write takes place. -/
theorem create_checks_entities_in_order (s : Store) (req : CreateReq) :
    (s.findPractice req.practiceId = none →
      (createAppointment s req).1 =
        { httpStatus := 404, success := false, error := some "Practice not found" } ∧
      (createAppointment s req).2 = s) ∧
    ((s.findPractice req.practiceId).isSome = true →
      s.findPatient req.patientId = none →
      (createAppointment s req).1 =
        { httpStatus := 404, success := false, error := some "Patient not found" } ∧
      (createAppointment s req).2 = s) ∧
    ((s.findPractice req.practiceId).isSome = true →
      (s.findPatient req.patientId).isSome = true →
      s.findProvider req.providerId = none →
      (createAppointment s req).1 =
        { httpStatus := 404, success := false, error := some "Provider not found" } ∧
      (createAppointment s req).2 = s) := by
  refine ⟨fun h1 => ?_, fun h1 h2 => ?_, fun h1 h2 h3 => ?_⟩
  · unfold createAppointment createAppointmentWith
    rw [h1]
    exact ⟨rfl, rfl⟩
  · rcases Option.isSome_iff_exists.mp h1 with ⟨pr, h1'⟩
    unfold createAppointment createAppointmentWith
    rw [h1', h2]
    exact ⟨rfl, rfl⟩
  · rcases Option.isSome_iff_exists.mp h1 with ⟨pr, h1'⟩
    rcases Option.isSome_iff_exists.mp h2 with ⟨pa, h2'⟩
    unfold createAppointment createAppointmentWith
    rw [h1', h2', h3]
    exact ⟨rfl, rfl⟩

/-- Claim C6, witness: the three short-circuit branches exercised on
concrete stores, each missing exactly the entity named in the response. -/
theorem create_checks_entities_in_order_witness :
    ((createAppointment storeNoPractice reqSlot).1 =
        { httpStatus := 404, success := false, error := some "Practice not found" } ∧
      (createAppointment storeNoPractice reqSlot).2 = storeNoPractice) ∧
    ((createAppointment storeNoPatient reqSlot).1 =
        { httpStatus := 404, success := false, error := some "Patient not found" } ∧
      (createAppointment storeNoPatient reqSlot).2 = storeNoPatient) ∧
    ((createAppointment storeNoProvider reqSlot).1 =
        { httpStatus := 404, success := false, error := some "Provider not found" } ∧
      (createAppointment storeNoProvider reqSlot).2 = storeNoProvider) :=
  ⟨(create_checks_entities_in_order storeNoPractice reqSlot).1 (by decide),
   (create_checks_entities_in_order storeNoPatient reqSlot).2.1 (by decide) (by decide),
   (create_checks_entities_in_order storeNoProvider reqSlot).2.2 (by decide) (by decide)
     (by decide)⟩

/-- Claim C3: rescheduling an existing appointment to a target slot is
rejected with HTTP 400 when a different appointment (with another id) in
non-cancelled, non-no-show status occupies (provider, new date, new start
time), and is accepted when every appointment occupying that slot is the
rescheduled appointment itself: the conflict query excludes the
own id of the appointment. -/
theorem reschedule_excludes_self (s : Store) (aid newDate : Nat)
    (newStartTime newEndTime : String) (appt : Appointment)
    (hA : s.findAppointment aid = some appt) :
    ((∃ b ∈ s.appointments, ¬b.id = appt.id ∧
        conflictsWith appt.providerId newDate newStartTime b = true) →
      (rescheduleAppointment s aid newDate newStartTime newEndTime).1 =
        { httpStatus := 400, success := false,
          error := some "New time slot already booked" }) ∧
    ((∀ b ∈ s.appointments,
        conflictsWith appt.providerId newDate newStartTime b = true → b.id = appt.id) →
      (rescheduleAppointment s aid newDate newStartTime newEndTime).1.httpStatus = 200 ∧
      (rescheduleAppointment s aid newDate newStartTime newEndTime).1.success = true) := by
  constructor
  · intro hc
    rcases hc with ⟨b, hb, hne, hcf⟩
    have hcs : (s.appointments.find? (fun a =>
        conflictsWith appt.providerId newDate newStartTime a && a.id != appt.id)).isSome = true :=
      List.find?_isSome.mpr ⟨b, hb, by simp [hcf, hne]⟩
    unfold rescheduleAppointment
    rw [hA]
    simp [hcs]
  · intro honly
    have hnone : s.appointments.find? (fun a =>
        conflictsWith appt.providerId newDate newStartTime a && a.id != appt.id) = none := by
      rw [List.find?_eq_none]
      intro a ha h
      simp only [Bool.and_eq_true, bne_iff_ne, ne_eq] at h
      exact h.2 (honly a ha h.1)
    unfold rescheduleAppointment
    rw [hA]
    simp [hnone]

/-- Claim C3, witness: on a store with two scheduled appointments of the
same provider, rescheduling the first onto the slot of the second is
rejected, while rescheduling it onto its own current slot is accepted. -/
theorem reschedule_excludes_self_witness :
    (rescheduleAppointment storeTwo 0 100 "10:00" "10:30").1 =
      { httpStatus := 400, success := false,
        error := some "New time slot already booked" } ∧
    ((rescheduleAppointment storeTwo 0 100 "09:00" "09:30").1.httpStatus = 200 ∧
     (rescheduleAppointment storeTwo 0 100 "09:00" "09:30").1.success = true) :=
  ⟨(reschedule_excludes_self storeTwo 0 100 "10:00" "10:30" apptA (by decide)).1 (by decide),
   (reschedule_excludes_self storeTwo 0 100 "09:00" "09:30" apptA (by decide)).2 (by decide)⟩

/-- Claim C7: for an existing provider and a query date whose day of week
is marked unavailable in the provider weekly schedule, the available-slots
handler answers with a 200 success response carrying an empty
`availableSlots` list and an explanatory message, and no error. -/
theorem available_slots_day_off (s : Store) (pid d : Nat) (pv : ProviderRec)
    (hpv : s.findProvider pid = some pv)
    (hoff : (pv.schedule.byDay (getDayIdx d)).available = false) :
    getAvailableSlots s pid (some d) =
      { httpStatus := 200, success := true, availableSlots := some [],
        message := some "Provider not available on this day" } := by
  unfold getAvailableSlots
  rw [hpv]
  simp [hoff]

/-- Claim C7, witness: a provider whose schedule marks every day
unavailable answers the empty slot list on a concrete date. -/
theorem available_slots_day_off_witness :
    getAvailableSlots storeDayOff 1 (some 100) =
      { httpStatus := 200, success := true, availableSlots := some [],
        message := some "Provider not available on this day" } :=
  available_slots_day_off storeDayOff 1 100 ⟨1, allDaysOff, {}⟩ (by decide) (by decide)

/-- Claim C9: deleting an id absent from the appointment store answers
HTTP 404 with success flag false and error "Appointment not found" (not a
500) and leaves the store unchanged; deleting a present id (ids being
unique) answers success and removes the appointment, so no appointment with
that id remains. -/
theorem delete_by_id_cases (s : Store) (aid : Nat) :
    (s.findAppointment aid = none →
      (deleteAppointment s aid).1 =
        { httpStatus := 404, success := false, error := some "Appointment not found" } ∧
      (deleteAppointment s aid).2 = s) ∧
    ((s.appointments.map (fun a => a.id)).Nodup →
      (s.findAppointment aid).isSome = true →
      (deleteAppointment s aid).1 =
        { httpStatus := 200, success := true,
          message := some "Appointment deleted successfully" } ∧
      ∀ a ∈ (deleteAppointment s aid).2.appointments, ¬a.id = aid) := by
  constructor
  · intro h
    unfold deleteAppointment
    rw [h]
    exact ⟨rfl, rfl⟩
  · intro hnd h
    rcases Option.isSome_iff_exists.mp h with ⟨x, hx⟩
    unfold deleteAppointment
    rw [hx]
    refine ⟨rfl, ?_⟩
    intro a ha
    exact eraseP_id_complete aid s.appointments hnd a ha

/-- Claim C9, witness: both delete branches exercised on a concrete store,
a missing id answering 404 and a present id being removed. -/
theorem delete_by_id_cases_witness :
    ((deleteAppointment baseStore 5).1 =
        { httpStatus := 404, success := false, error := some "Appointment not found" } ∧
      (deleteAppointment baseStore 5).2 = baseStore) ∧
    ((deleteAppointment baseStore 0).1 =
        { httpStatus := 200, success := true,
          message := some "Appointment deleted successfully" } ∧
      ∀ a ∈ (deleteAppointment baseStore 0).2.appointments, ¬a.id = 0) :=
  ⟨(delete_by_id_cases baseStore 5).1 (by decide),
   (delete_by_id_cases baseStore 0).2 (by decide) (by decide)⟩

/-- Claim C4: listing with an exact date filter returns exactly the
appointments whose date lies in the half-open interval of one day starting
at that date; listing with both range bounds returns exactly those whose
date lies in the closed interval; in both cases the result is sorted by
appointment date ascending, then start time ascending. -/
theorem listing_date_and_range_filters (s : Store) (D A B : Nat) :
    (listAppointments s { date := some D }).Perm
      (s.appointments.filter (fun a =>
        decide (D ≤ a.appointmentDate) && decide (a.appointmentDate < D + dayMs))) ∧
    List.Pairwise (fun a b => apptLE a b = true) (listAppointments s { date := some D }) ∧
    (listAppointments s { startDate := some A, endDate := some B }).Perm
      (s.appointments.filter (fun a =>
        decide (A ≤ a.appointmentDate) && decide (a.appointmentDate ≤ B))) ∧
    List.Pairwise (fun a b => apptLE a b = true)
      (listAppointments s { startDate := some A, endDate := some B }) := by
  refine ⟨?_, ?_, ?_, ?_⟩
  · have h1 : (listAppointments s { date := some D }).Perm
        (s.appointments.filter (matchesFilters { date := some D })) :=
      List.mergeSort_perm _ _
    have h2 : s.appointments.filter (matchesFilters { date := some D }) =
        s.appointments.filter (fun a =>
          decide (D ≤ a.appointmentDate) && decide (a.appointmentDate < D + dayMs)) :=
      List.filter_congr (fun x _ => by simp [matchesFilters, matchesDateFilter])
    exact h2 ▸ h1
  · exact List.sorted_mergeSort apptLE_trans apptLE_total _
  · have h1 : (listAppointments s { startDate := some A, endDate := some B }).Perm
        (s.appointments.filter (matchesFilters { startDate := some A, endDate := some B })) :=
      List.mergeSort_perm _ _
    have h2 : s.appointments.filter (matchesFilters { startDate := some A, endDate := some B }) =
        s.appointments.filter (fun a =>
          decide (A ≤ a.appointmentDate) && decide (a.appointmentDate ≤ B)) :=
      List.filter_congr (fun x _ => by simp [matchesFilters, matchesDateFilter])
    exact h2 ▸ h1
  · exact List.sorted_mergeSort apptLE_trans apptLE_total _

/-- Claim C10: supplying only one of the two range bounds (and no exact
date) applies no date filter at all: the listing is identical to the one
with both bounds omitted, whatever the remaining filters are. -/
theorem listing_single_bound_unfiltered (s : Store)
    (pq pa pv : Option Nat) (st : Option String) (bound : Nat) :
    listAppointments s { practiceId := pq, patientId := pa, providerId := pv,
                         status := st, startDate := some bound } =
      listAppointments s { practiceId := pq, patientId := pa, providerId := pv,
                           status := st } ∧
    listAppointments s { practiceId := pq, patientId := pa, providerId := pv,
                         status := st, endDate := some bound } =
      listAppointments s { practiceId := pq, patientId := pa, providerId := pv,
                           status := st } := by
  exact ⟨rfl, rfl⟩

theorem create_success_eq (s : Store) (req : CreateReq)
    (pr : PracticeRec) (pa : PatientRec) (pv : ProviderRec)
    (hpr : s.findPractice req.practiceId = some pr)
    (hpa : s.findPatient req.patientId = some pa)
    (hpv : s.findProvider req.providerId = some pv)
    (hnone : s.appointments.find?
      (conflictsWith req.providerId req.appointmentDate req.startTime) = none) :
    createAppointment s req =
      ({ httpStatus := 201, success := true,
         message := some "Appointment created successfully" },
       createSuccessStore s req) := by
  have hred := createWith_reduce {} s req pr pa pv hpr hpa hpv hnone
  unfold createAppointment
  rw [hred]
  rfl

/-- Claim C5: after a successful create, in the resulting store the patient
referenced by the request carries the date of the new appointment as
next-appointment stat, the provider referenced carries as total-appointment
stat the full count of non-cancelled appointments of that provider, and the
practice referenced carries the full count of appointments of that
practice. -/
theorem create_updates_denormalized_stats (s : Store) (req : CreateReq)
    (hpr : (s.findPractice req.practiceId).isSome = true)
    (hpa : (s.findPatient req.patientId).isSome = true)
    (hpv : (s.findProvider req.providerId).isSome = true)
    (hfree : ∀ a ∈ s.appointments, a.providerId = req.providerId →
      a.appointmentDate = req.appointmentDate → a.startTime = req.startTime →
      a.status = "cancelled" ∨ a.status = "no-show") :
    ((createAppointment s req).2.findPatient req.patientId).map
        (fun p => p.stats.nextAppointment) = some (some req.appointmentDate) ∧
    ((createAppointment s req).2.findProvider req.providerId).map
        (fun p => p.stats.totalAppointments) =
      some (countProviderNonCancelled (createAppointment s req).2 req.providerId) ∧
    ((createAppointment s req).2.findPractice req.practiceId).map
        (fun p => p.stats.totalAppointments) =
      some (countPracticeAll (createAppointment s req).2 req.practiceId) := by
  rcases Option.isSome_iff_exists.mp hpr with ⟨pr, hpr'⟩
  rcases Option.isSome_iff_exists.mp hpa with ⟨pa, hpa'⟩
  rcases Option.isSome_iff_exists.mp hpv with ⟨pv, hpv'⟩
  have hnone := conflict_find?_eq_none s req hfree
  rw [create_success_eq s req pr pa pv hpr' hpa' hpv' hnone]
  have hpat : (createSuccessStore s req).patients =
      s.patients.map (fun p => if p.id == req.patientId
        then { p with stats := { p.stats with nextAppointment := some req.appointmentDate } }
        else p) := rfl
  have hprov : (createSuccessStore s req).providers =
      s.providers.map (fun p => if p.id == req.providerId
        then { p with stats := { p.stats with
          totalAppointments := countProviderNonCancelled (saveStore s req) req.providerId } }
        else p) := rfl
  have hprac : (createSuccessStore s req).practices =
      s.practices.map (fun p => if p.id == req.practiceId
        then { p with stats := { p.stats with
          totalAppointments := countPracticeAll (saveStore s req) req.practiceId } }
        else p) := rfl
  refine ⟨?_, ?_, ?_⟩
  · show ((createSuccessStore s req).findPatient req.patientId).map
        (fun p => p.stats.nextAppointment) = some (some req.appointmentDate)
    unfold Store.findPatient
    rw [hpat, find?_map_update _ _ (fun a => by
      by_cases h : (a.id == req.patientId) = true <;> simp [h]),
      show List.find? (fun p => p.id == req.patientId) s.patients = some pa from hpa']
    have hid := List.find?_some hpa'
    simp only [Option.map_some']
    rw [if_pos hid]
  · show ((createSuccessStore s req).findProvider req.providerId).map
        (fun p => p.stats.totalAppointments) =
      some (countProviderNonCancelled (createSuccessStore s req) req.providerId)
    unfold Store.findProvider
    rw [hprov, find?_map_update _ _ (fun a => by
      by_cases h : (a.id == req.providerId) = true <;> simp [h]),
      show List.find? (fun p => p.id == req.providerId) s.providers = some pv from hpv']
    have hid := List.find?_some hpv'
    simp only [Option.map_some']
    rw [if_pos hid]
    rfl
  · show ((createSuccessStore s req).findPractice req.practiceId).map
        (fun p => p.stats.totalAppointments) =
      some (countPracticeAll (createSuccessStore s req) req.practiceId)
    unfold Store.findPractice
    rw [hprac, find?_map_update _ _ (fun a => by
      by_cases h : (a.id == req.practiceId) = true <;> simp [h]),
      show List.find? (fun p => p.id == req.practiceId) s.practices = some pr from hpr']
    have hid := List.find?_some hpr'
    simp only [Option.map_some']
    rw [if_pos hid]
    rfl

/-- Claim C5, witness: the three stat fields after a concrete successful
create. -/
theorem create_updates_denormalized_stats_witness :
    ((createAppointment storeFreeSlot reqSlot).2.findPatient 1).map
        (fun p => p.stats.nextAppointment) = some (some 100) ∧
    ((createAppointment storeFreeSlot reqSlot).2.findProvider 1).map
        (fun p => p.stats.totalAppointments) =
      some (countProviderNonCancelled (createAppointment storeFreeSlot reqSlot).2 1) ∧
    ((createAppointment storeFreeSlot reqSlot).2.findPractice 1).map
        (fun p => p.stats.totalAppointments) =
      some (countPracticeAll (createAppointment storeFreeSlot reqSlot).2 1) :=
  create_updates_denormalized_stats storeFreeSlot reqSlot (by decide) (by decide)
    (by decide) (by decide)

/-- Claim C8 (amended): when the appointment save succeeds but one of the
awaited stat updates rejects, the handler lands in its catch block and the
client receives the HTTP 500 "Failed to create appointment" error response
instead of the success response, while the appointment itself remains
persisted in the store. -/
theorem create_stat_failure_returns_500 (eff : Effects) (s : Store) (req : CreateReq)
    (hpr : (s.findPractice req.practiceId).isSome = true)
    (hpa : (s.findPatient req.patientId).isSome = true)
    (hpv : (s.findProvider req.providerId).isSome = true)
    (hfree : ∀ a ∈ s.appointments, a.providerId = req.providerId →
      a.appointmentDate = req.appointmentDate → a.startTime = req.startTime →
      a.status = "cancelled" ∨ a.status = "no-show")
    (hfail : eff.patientUpd = false ∨ eff.providerUpd = false ∨ eff.practiceUpd = false) :
    (createAppointmentWith eff s req).1 = createFailed ∧
    newAppointment s req ∈ (createAppointmentWith eff s req).2.appointments := by
  rcases Option.isSome_iff_exists.mp hpr with ⟨pr, hpr'⟩
  rcases Option.isSome_iff_exists.mp hpa with ⟨pa, hpa'⟩
  rcases Option.isSome_iff_exists.mp hpv with ⟨pv, hpv'⟩
  have hnone := conflict_find?_eq_none s req hfree
  have hred := createWith_reduce eff s req pr pa pv hpr' hpa' hpv' hnone
  rw [hred]
  have hmem : newAppointment s req ∈ s.appointments ++ [newAppointment s req] := by simp
  rcases hfail with h | h | h
  · simp only [h, Bool.not_false, if_true]
    exact ⟨trivial, hmem⟩
  · cases hp : eff.patientUpd
    · simp only [Bool.not_false, if_true]
      exact ⟨trivial, hmem⟩
    · simp only [Bool.not_true, Bool.false_eq_true, if_false, h, Bool.not_false, if_true]
      exact ⟨trivial, hmem⟩
  · cases hp : eff.patientUpd
    · simp only [Bool.not_false, if_true]
      exact ⟨trivial, hmem⟩
    · cases hq : eff.providerUpd
      · simp only [Bool.not_true, Bool.false_eq_true, if_false, Bool.not_false, if_true]
        exact ⟨trivial, hmem⟩
      · simp only [Bool.not_true, Bool.false_eq_true, if_false, h, Bool.not_false, if_true]
        exact ⟨trivial, hmem⟩

/-- Claim C8, counterexample to the unamended claim: on a concrete store,
with the patient stat update rejecting, the client response differs from
the success response of the fully successful create (500 instead of 201)
even though the appointment was persisted. -/
theorem create_stat_failure_returns_500_cex :
    (createAppointmentWith ⟨false, true, true⟩ storeFreeSlot reqSlot).1.httpStatus = 500 ∧
    (createAppointmentWith ⟨false, true, true⟩ storeFreeSlot reqSlot).1.success = false ∧
    ¬(createAppointmentWith ⟨false, true, true⟩ storeFreeSlot reqSlot).1 =
      (createAppointment storeFreeSlot reqSlot).1 ∧
    newAppointment storeFreeSlot reqSlot ∈
      (createAppointmentWith ⟨false, true, true⟩ storeFreeSlot reqSlot).2.appointments := by
  decide

/-- Claim C8, witness: the amended theorem applied on a concrete store with
the provider stat update rejecting. -/
theorem create_stat_failure_returns_500_witness :
    (createAppointmentWith ⟨true, false, true⟩ storeFreeSlot reqSlot).1 = createFailed ∧
    newAppointment storeFreeSlot reqSlot ∈
      (createAppointmentWith ⟨true, false, true⟩ storeFreeSlot reqSlot).2.appointments :=
  create_stat_failure_returns_500 ⟨true, false, true⟩ storeFreeSlot reqSlot (by decide)
    (by decide) (by decide) (by decide) (by decide)

end Booking
